import Mathlib

/-!
Shallow embedding of `src/PlanningAgent.py` (class `PlanningAgent`).

The Python class holds two pieces of mutable state: a clamped success
probability `success_rate` and an append-only log `history` of
`(step, succeeded)` pairs.  Each Python method is embedded as a function
taking the agent state and returning its result together with the new
state.  The process-wide random source (`random.random()` returning a
uniform value in [0,1)) is embedded as an explicit sample stream
`rand : Nat → ℚ`, where the i-th step executed in one call to `act`
consumes sample `rand i`.  Python floats are embedded as rationals.
-/

namespace PlanningAgent

/-- Python's `str.strip()`: remove leading and trailing whitespace characters.
Embedded on the string's character list so that it evaluates by kernel
reduction. -/
def pyStrip (s : String) : String :=
  ⟨((s.data.dropWhile Char.isWhitespace).reverse.dropWhile Char.isWhitespace).reverse⟩

/-- Agent state: the fields of the Python object, set in `__init__`. -/
structure Agent where
  history : List (String × Bool)
  success_rate : ℚ
  deriving Repr, DecidableEq

/-- `__init__(self, success_rate=0.7)`:
`self.history = []`, `self.success_rate = max(0.0, min(1.0, success_rate))`. -/
def init (success_rate : ℚ) : Agent :=
  { history := [], success_rate := max 0 (min 1 success_rate) }

/-- The default constructor argument `success_rate: float = 0.7`. -/
def initDefault : Agent := init (7/10)

/-- `perceive_goal(self, goal)`.  The input is `Option String`: `none` embeds
an absent / non-string argument (Python's `not isinstance(goal, str)` test);
for a string `g`, the guard `not goal or not goal.strip()` holds iff `g` is
empty or whitespace-only, i.e. iff `g = "" ∨ pyStrip g = ""`.
`raise ValueError` is embedded as `Except.error`. -/
def perceive_goal (a : Agent) (goal : Option String) :
    Except String String × Agent :=
  match goal with
  | none => (Except.error "Goal must be a non-empty string", a)
  | some g =>
      if g = "" ∨ pyStrip g = "" then
        (Except.error "Goal must be a non-empty string", a)
      else
        (Except.ok (pyStrip g), a)

/-- `plan(self, goal)`: the fixed three-step template. -/
def plan (a : Agent) (goal : String) : List String × Agent :=
  (["Research " ++ goal,
    "Draft outline for " ++ goal,
    "Create final output for " ++ goal], a)

/-- `act(self, steps)`: the list comprehension
`[(step, random.random() < self.success_rate) for step in steps]`
followed by `self.history.extend(results)`.  The i-th iteration's call to
`random.random()` is the sample `rand i`. -/
def act (a : Agent) (steps : List String) (rand : Nat → ℚ) :
    List (String × Bool) × Agent :=
  let results := steps.enum.map (fun p => (p.2, decide (rand p.1 < a.success_rate)))
  (results, { a with history := a.history ++ results })

/-- `reflect(self, results)`: `[step for step, success in results if not success]`. -/
def reflect (a : Agent) (results : List (String × Bool)) :
    List String × Agent :=
  ((results.filter (fun p => !p.2)).map Prod.fst, a)

/-- The dictionary returned by `get_execution_summary`. -/
structure Summary where
  total : Nat
  successful : Nat
  failed : Nat
  success_rate : ℚ
  deriving Repr, DecidableEq

/-- `get_execution_summary(self)`. -/
def get_execution_summary (a : Agent) : Summary × Agent :=
  if a.history = [] then
    ({ total := 0, successful := 0, failed := 0, success_rate := 0 }, a)
  else
    let total := a.history.length
    let successful := (a.history.filter (fun p => p.2)).length
    let failed := total - successful
    let success_rate := if total > 0 then (successful : ℚ) / total else 0
    ({ total := total, successful := successful, failed := failed,
       success_rate := success_rate }, a)

/-- Claim C1: `act` consumes one sample per step, in step order; the returned
list has one result per input step, the i-th result pairs the i-th input step
with `succeeded = (rand i < success_rate)` (strict comparison), and hence the
order of results matches the order of the input steps. -/
theorem act_result_spec (a : Agent) (steps : List String) (rand : Nat → ℚ)
    (i : Nat) :
    (act a steps rand).1.length = steps.length ∧
    (act a steps rand).1[i]? =
      (steps[i]?).map (fun s => (s, decide (rand i < a.success_rate))) := by
  constructor
  · simp [act]
  · simp only [act, List.getElem?_map, List.getElem?_enum]
    cases hsi : steps[i]? <;> simp

/-- Claim C2: `act` appends exactly the returned results, in order, to
`history` (new history = old history ++ returned results), leaves
`success_rate` unchanged, never fails (it is a total function), and on the
empty step list returns the empty list and leaves the whole state unchanged. -/
theorem act_frame (a : Agent) (steps : List String) (rand : Nat → ℚ) :
    (act a steps rand).2.history = a.history ++ (act a steps rand).1 ∧
    (act a steps rand).2.success_rate = a.success_rate ∧
    (act a [] rand).1 = [] ∧
    (act a [] rand).2 = a := by
  refine ⟨rfl, rfl, rfl, ?_⟩
  cases a
  simp [act]

/-- Claim C3: in every agent state the summary satisfies
`successful + failed = total = length history`, `successful` counts the
history entries whose flag is true, `success_rate = successful / total` when
`total > 0` and `0` when `total = 0`, and the empty history yields the summary
`{total := 0, successful := 0, failed := 0, success_rate := 0}`. -/
theorem get_execution_summary_invariant (a : Agent) :
    (get_execution_summary a).1.successful + (get_execution_summary a).1.failed
        = (get_execution_summary a).1.total ∧
    (get_execution_summary a).1.total = a.history.length ∧
    (get_execution_summary a).1.successful
        = (a.history.filter (fun r => r.2)).length ∧
    (0 < (get_execution_summary a).1.total →
      (get_execution_summary a).1.success_rate
        = ((get_execution_summary a).1.successful : ℚ)
            / (get_execution_summary a).1.total) ∧
    ((get_execution_summary a).1.total = 0 →
      (get_execution_summary a).1.success_rate = 0) ∧
    (a.history = [] → (get_execution_summary a).1 = ⟨0, 0, 0, 0⟩) := by
  by_cases h : a.history = []
  · simp [get_execution_summary, h]
  · have hgt : 0 < a.history.length := List.length_pos.2 h
    have hle : (a.history.filter (fun r => r.2)).length ≤ a.history.length :=
      List.length_filter_le _ _
    have e : (get_execution_summary a).1 =
        ⟨a.history.length, (a.history.filter (fun r => r.2)).length,
         a.history.length - (a.history.filter (fun r => r.2)).length,
         ((a.history.filter (fun r => r.2)).length : ℚ) / a.history.length⟩ := by
      simp [get_execution_summary, h, gt_iff_lt, hgt]
    rw [e]
    refine ⟨Nat.add_sub_cancel' hle, rfl, rfl, fun _ => rfl, ?_, ?_⟩
    · intro h0
      exact absurd h0 (Nat.pos_iff_ne_zero.1 hgt)
    · intro h0
      exact absurd h0 h

/-- Witness for claim C3 at a concrete two-entry history and at the empty
history. -/
theorem get_execution_summary_invariant_witness :
    0 < (get_execution_summary ⟨[("a", true), ("b", false)], 1⟩).1.total ∧
    (get_execution_summary ⟨[("a", true), ("b", false)], 1⟩).1.success_rate
      = ((get_execution_summary ⟨[("a", true), ("b", false)], 1⟩).1.successful : ℚ)
          / (get_execution_summary ⟨[("a", true), ("b", false)], 1⟩).1.total ∧
    (get_execution_summary ⟨([] : List (String × Bool)), 1⟩).1 = ⟨0, 0, 0, 0⟩ :=
  ⟨by decide,
   (get_execution_summary_invariant ⟨[("a", true), ("b", false)], 1⟩).2.2.2.1
     (by decide),
   (get_execution_summary_invariant ⟨([] : List (String × Bool)), 1⟩).2.2.2.2.2
     rfl⟩

/-- Claim C4: `perceive_goal` returns the stripped goal when it is non-empty
after stripping, signals the `ValueError` for empty / whitespace-only /
absent (non-string) inputs, and in every case leaves the agent state
unchanged. -/
theorem perceive_goal_spec (a : Agent) (g : String) :
    (pyStrip g ≠ "" →
      perceive_goal a (some g) = (Except.ok (pyStrip g), a)) ∧
    (pyStrip g = "" →
      perceive_goal a (some g)
        = (Except.error "Goal must be a non-empty string", a)) ∧
    perceive_goal a none = (Except.error "Goal must be a non-empty string", a) ∧
    ∀ goal : Option String, (perceive_goal a goal).2 = a := by
  refine ⟨?_, ?_, rfl, ?_⟩
  · intro hg
    have hcond : ¬ (g = "" ∨ pyStrip g = "") := by
      rintro (rfl | h2)
      · exact hg rfl
      · exact hg h2
    simp [perceive_goal, hcond]
  · intro hg
    simp [perceive_goal, hg]
  · intro goal
    cases goal with
    | none => rfl
    | some g =>
        by_cases hc : g = "" ∨ pyStrip g = "" <;> simp [perceive_goal, hc]

/-- Witness for claim C4 at a concrete valid goal, a whitespace-only goal and
an absent goal. -/
theorem perceive_goal_spec_witness :
    perceive_goal initDefault (some "  Write AI blog post  ")
      = (Except.ok "Write AI blog post", initDefault) ∧
    perceive_goal initDefault (some "   ")
      = (Except.error "Goal must be a non-empty string", initDefault) ∧
    perceive_goal initDefault none
      = (Except.error "Goal must be a non-empty string", initDefault) := by
  refine ⟨?_, ?_, (perceive_goal_spec initDefault "x").2.2.1⟩
  · have e : pyStrip "  Write AI blog post  " = "Write AI blog post" := by decide
    have h := (perceive_goal_spec initDefault "  Write AI blog post  ").1
      (by decide)
    rw [e] at h
    exact h
  · exact (perceive_goal_spec initDefault "   ").2.1 (by decide)

/-- Claim C5: `reflect` returns exactly the step descriptions of the pairs
whose `succeeded` flag is false, in their original relative order; it leaves
the agent state unchanged and its result does not depend on the agent state. -/
theorem reflect_spec (a : Agent) (results : List (String × Bool)) :
    (reflect a results).1
      = (results.filter (fun r => decide (r.2 = false))).map Prod.fst ∧
    (reflect a results).2 = a ∧
    ∀ b : Agent, (reflect b results).1 = (reflect a results).1 := by
  refine ⟨?_, rfl, fun _ => rfl⟩
  simp only [reflect]
  congr 1
  apply List.filter_congr
  intro x _
  cases h : x.2 <;> simp

/-- Claim C6: `plan` returns exactly the three templated steps, in fixed
order; it is deterministic, leaves the agent state unchanged and its result
does not depend on the agent state. -/
theorem plan_spec (a : Agent) (g : String) :
    (plan a g).1
      = ["Research " ++ g, "Draft outline for " ++ g,
         "Create final output for " ++ g] ∧
    (plan a g).1.length = 3 ∧
    (plan a g).2 = a ∧
    ∀ b : Agent, (plan b g).1 = (plan a g).1 :=
  ⟨rfl, rfl, rfl, fun _ => rfl⟩

/-- Claim C7: the constructor clamps the success probability to [0, 1]
(values below 0 become 0, values above 1 become 1, in-range values are kept),
the default is 0.7, and the initial history is empty. -/
theorem init_clamps (x : ℚ) :
    (init x).history = [] ∧
    0 ≤ (init x).success_rate ∧
    (init x).success_rate ≤ 1 ∧
    (x < 0 → (init x).success_rate = 0) ∧
    (1 < x → (init x).success_rate = 1) ∧
    (0 ≤ x → x ≤ 1 → (init x).success_rate = x) ∧
    initDefault = init (7/10) ∧
    initDefault.success_rate = 7/10 := by
  refine ⟨rfl, le_max_left _ _, ?_, ?_, ?_, ?_, rfl, ?_⟩
  · exact max_le (by norm_num) (min_le_left _ _)
  · intro hx
    have h1 : min 1 x = x := min_eq_right (le_of_lt (lt_trans hx zero_lt_one))
    rw [init]
    simp [h1, max_eq_left (le_of_lt hx)]
  · intro hx
    have h1 : min 1 x = 1 := min_eq_left (le_of_lt hx)
    rw [init]
    simp [h1, max_eq_right zero_le_one]
  · intro h0 h1
    rw [init]
    simp [min_eq_right h1, max_eq_right h0]
  · rw [initDefault, init]
    simp [min_eq_right (by norm_num : (7:ℚ)/10 ≤ 1),
          max_eq_right (by norm_num : (0:ℚ) ≤ 7/10)]

/-- Witness for claim C7 at concrete below-range, above-range and in-range
probabilities. -/
theorem init_clamps_witness :
    (init (-1)).success_rate = 0 ∧
    (init 2).success_rate = 1 ∧
    (init 1).success_rate = 1 ∧
    (init 0).history = [] :=
  ⟨(init_clamps (-1)).2.2.2.1 neg_one_lt_zero,
   (init_clamps 2).2.2.2.2.1 one_lt_two,
   (init_clamps 1).2.2.2.2.2.1 zero_le_one le_rfl,
   (init_clamps 0).1⟩

/-- Claim C8: `history` is append-only: `perceive_goal`, `plan`, `reflect`
and `get_execution_summary` leave it unchanged, and `act` extends it by
appending its results, so the old history is always a prefix of the new one
and only `act` extends it. -/
theorem history_append_only (a : Agent) (goal : Option String) (g : String)
    (steps : List String) (rand : Nat → ℚ)
    (results : List (String × Bool)) :
    (perceive_goal a goal).2.history = a.history ∧
    (plan a g).2.history = a.history ∧
    (act a steps rand).2.history = a.history ++ (act a steps rand).1 ∧
    (∃ t, (act a steps rand).2.history = a.history ++ t) ∧
    (reflect a results).2.history = a.history ∧
    (get_execution_summary a).2.history = a.history := by
  refine ⟨?_, rfl, rfl, ⟨(act a steps rand).1, rfl⟩, rfl, ?_⟩
  · cases goal with
    | none => rfl
    | some g =>
        by_cases hc : g = "" ∨ pyStrip g = "" <;> simp [perceive_goal, hc]
  · by_cases h : a.history = [] <;> simp [get_execution_summary, h]

/-- Claim C9: `get_execution_summary` is a pure read: it leaves the agent
state unchanged, and two successive calls with no intervening `act` return
identical results. -/
theorem get_execution_summary_pure (a : Agent) :
    (get_execution_summary a).2 = a ∧
    (get_execution_summary ((get_execution_summary a).2)).1
      = (get_execution_summary a).1 := by
  have h2 : (get_execution_summary a).2 = a := by
    by_cases h : a.history = [] <;> simp [get_execution_summary, h]
  exact ⟨h2, by rw [h2]⟩

/-- Claim C10: because success is a strict comparison of a sample in [0,1)
against the clamped probability, an agent constructed with probability 1
marks every step succeeded and an agent constructed with probability 0 marks
every step failed, for every admissible sample stream. -/
theorem act_extreme (steps : List String) (rand : Nat → ℚ)
    (hr : ∀ i, 0 ≤ rand i ∧ rand i < 1) :
    (∀ r ∈ (act (init 1) steps rand).1, r.2 = true) ∧
    (∀ r ∈ (act (init 0) steps rand).1, r.2 = false) := by
  have h1 : (init 1).success_rate = 1 := by norm_num [init]
  have h0 : (init 0).success_rate = 0 := by norm_num [init]
  constructor
  · intro r hmem
    simp only [act, List.mem_map] at hmem
    obtain ⟨p, hp, rfl⟩ := hmem
    simp [h1, (hr p.1).2]
  · intro r hmem
    simp only [act, List.mem_map] at hmem
    obtain ⟨p, hp, rfl⟩ := hmem
    simp [h0, not_lt.2 (hr p.1).1]

/-- Witness for claim C10 at a concrete step list and the constant sample
stream 0. -/
theorem act_extreme_witness :
    (∀ r ∈ (act (init 1) ["Research x"] (fun _ => 0)).1, r.2 = true) ∧
    (∀ r ∈ (act (init 0) ["Research x"] (fun _ => 0)).1, r.2 = false) :=
  act_extreme ["Research x"] (fun _ => 0) (fun _ => ⟨le_rfl, zero_lt_one⟩)

end PlanningAgent
